import Mathlib

/-!
Verification of the lockfile consistency checker (lint-lockfile).

The checker is a sequential script: it locates package.json and
package-lock.json, optionally verifies both are free of uncommitted
changes, regenerates the lockfile via the external package manager, and
compares the before/after snapshots of both documents, reporting drift
according to the strict/warn mode.

The script's own control flow (argument handling, the check/checkDeep
dispatch helpers, the git guard, the snapshot comparison, the
peer-dependency noise filter, and the exit-code selection) is embedded
faithfully below.  External collaborators (the filesystem, git, npm, the
JSON loader and the assertion library) are modelled as inputs: an `Env`
record carries the facts those collaborators would report during one run.
-/

namespace LintLockfile

/-- Parsed structured document (package.json / package-lock.json contents).
Modelled from the spec: an opaque tree of scalars, sequences and
string-keyed mappings; the checker never inspects its interior, it only
compares documents for deep equality. -/
inductive JSON where
  | null : JSON
  | bool (b : Bool) : JSON
  | num (n : Int) : JSON
  | str (s : String) : JSON
  | arr (elems : List JSON) : JSON
  | obj (fields : List (String × JSON)) : JSON

mutual

/-- Deep structural equality of two documents (scalars by value, sequences
pointwise, mappings pointwise over key/value pairs in canonical order). -/
def JSON.beq : JSON → JSON → Bool
  | .null, .null => true
  | .bool a, .bool b => a == b
  | .num a, .num b => a == b
  | .str a, .str b => a == b
  | .arr xs, .arr ys => JSON.beqList xs ys
  | .obj fs, .obj gs => JSON.beqFields fs gs
  | _, _ => false

/-- Pointwise deep equality of two sequences of documents. -/
def JSON.beqList : List JSON → List JSON → Bool
  | [], [] => true
  | x :: xs, y :: ys => JSON.beq x y && JSON.beqList xs ys
  | _, _ => false

/-- Pointwise deep equality of two key/value field lists. -/
def JSON.beqFields : List (String × JSON) → List (String × JSON) → Bool
  | [], [] => true
  | (k1, v1) :: fs, (k2, v2) :: gs =>
    k1 == k2 && JSON.beq v1 v2 && JSON.beqFields fs gs
  | _, _ => false

end

/-- Modelled from the spec: node:util isDeepStrictEqual, the generic
recursive deep-equality comparator over parsed documents.  Documents are
taken in canonical (parse-normalised) form, so deep equality is structural
equality of the trees. -/
def isDeepStrictEqual (a b : JSON) : Bool :=
  JSON.beq a b

/-- Command-line options of the script (parseArgs result):
warn mode and the skip-git flag. -/
structure Options where
  warn : Bool
  skipGit : Bool
deriving DecidableEq, Repr

/-- Modelled from the spec: a version-control status query result for one
path, as returned by gitStatus (utils/git.mjs, not under src):
whether git tooling was available, and whether the path is clean. -/
structure GitStatus where
  available : Bool
  clean : Bool
deriving DecidableEq, Repr

/-- The facts the external collaborators report during one run: the
located file paths, the per-path git statuses, the two snapshots of both
documents, and the message of the AssertionError that the external
assertion library produces for the lockfile deep-equality failure
(already VT-control-stripped), which the drift filter inspects. -/
structure Env where
  packageJSONPath : Option String
  packageLockPath : String
  packageStatus : GitStatus
  lockfileStatus : GitStatus
  expectedLockfile : JSON
  expectedPackage : JSON
  actualLockfile : JSON
  actualPackage : JSON
  assertionMessage : String

/-- Errors that abort the run: AssertionError (assert.ok, assert.fail,
assert.deepStrictEqual) and the generic Error thrown for lockfile drift. -/
inductive RunError where
  | assertion (message : String) : RunError
  | drift (message : String) : RunError
deriving DecidableEq, Repr

/-- Exit code when lockfile drift is detected (distinct from general errors). -/
def EXIT_DRIFT : Nat := 2

def notFoundMessage : String :=
  "Could not find package.json in the current directory or any parent directories"

def uncommittedPackageMessage (packageJSONPath : String) : String :=
  "package.json has uncommitted changes: " ++ packageJSONPath

def uncommittedLockfileMessage (packageLockPath : String) : String :=
  "package-lock.json has uncommitted changes: " ++ packageLockPath

def outOfSyncMessage : String :=
  "package-lock.json is out of sync with package.json"

def manifestMutationMessage (packageJSONPath : String) : String :=
  "package.json was unexpectedly modified during lockfile check: " ++ packageJSONPath

def driftMessage (lines : List String) : String :=
  "Lockfile drift detected:\n" ++ String.intercalate "\n" lines

/-- The check helper of run(): records an issue.  In strict mode, throws
immediately (assert.fail).  In warn mode, collects the message for later
reporting and continues. -/
def check (warn ok : Bool) (message : String) (issues : List String) :
    Except RunError (List String) :=
  if ok then
    .ok issues
  else if warn then
    .ok (issues ++ [message])
  else
    .error (.assertion message)

/-- The checkDeep helper of run(): checks deep equality of two values.
In strict mode, throws (assert.deepStrictEqual) if they are not equal.
In warn mode, records an issue instead and continues. -/
def checkDeep (warn : Bool) (actual expected : JSON) (message : String)
    (issues : List String) : Except RunError (List String) :=
  if warn then
    if isDeepStrictEqual actual expected then .ok issues
    else .ok (issues ++ [message])
  else
    if isDeepStrictEqual actual expected then .ok issues
    else .error (.assertion message)

/-- Splitting a character sequence at every occurrence of the separator
character (the behaviour of the JS string split method for a
one-character separator). -/
def splitCharsOn (sep : Char) : List Char → List (List Char)
  | [] => [[]]
  | c :: rest =>
    let groups := splitCharsOn sep rest
    if c == sep then
      [] :: groups
    else
      match groups with
      | [] => [[c]]
      | g :: gs => (c :: g) :: gs

/-- Splitting a string into its newline-separated lines (JS split on a
newline). -/
def splitIntoLines (s : String) : List String :=
  (splitCharsOn '\n' s.data).map String.mk

/-- Removing leading and trailing whitespace (the JS string trim method). -/
def trimString (s : String) : String :=
  String.mk (((s.data.dropWhile Char.isWhitespace).reverse.dropWhile
    Char.isWhitespace).reverse)

/-- Whether the first character sequence begins with the second. -/
def charsHaveLead : List Char → List Char → Bool
  | _, [] => true
  | [], _ :: _ => false
  | c :: cs, p :: ps => c == p && charsHaveLead cs ps

/-- Whether the first character sequence contains the second as a
contiguous subsequence. -/
def charsInclude : List Char → List Char → Bool
  | [], ps => ps.isEmpty
  | c :: cs, ps => charsHaveLead (c :: cs) ps || charsInclude cs ps

/-- Whether the string begins with the given pattern (the JS string
startsWith method). -/
def strBegins (s pattern : String) : Bool :=
  charsHaveLead s.data pattern.data

/-- Whether the string contains the given pattern as a substring (the JS
string includes method). -/
def containsSubstring (s pattern : String) : Bool :=
  charsInclude s.data pattern.data

/-- The drift filter applied to the caught AssertionError message: split
into lines, trim each, keep only addition/removal lines (starting with -
or +), drop the diff header line, and drop every line containing the
substring peer: (tolerated optional-peer-dependency noise). -/
def filterDiffLines (message : String) : List String :=
  ((((splitIntoLines message).map trimString).filter
      (fun line => strBegins line "-" || strBegins line "+")).filter
    (fun line => !strBegins line "+ actual - expected")).filter
    (fun line => !containsSubstring line "peer:")

/-- Modelled from the spec: node:path dirname — the directory portion of a
slash-separated path; a bare filename resolves to the current directory. -/
def dirname (p : String) : String :=
  match ((splitCharsOn '/' p.data).map String.mk).dropLast with
  | [] => "."
  | parts => String.intercalate "/" parts

/-- Resolved filesystem facts: manifest path, owning package directory,
lockfile path, lockfile directory, and the derived workspace-root flag. -/
structure PathContext where
  packageJSONPath : String
  packageDir : String
  packageLockPath : String
  lockfileDir : String
  isWorkspace : Bool
deriving DecidableEq, Repr

/-- The path resolution of run(): packageDir = dirname(packageJSONPath),
lockfileDir = dirname(packageLockPath), isWorkspace = lockfileDir differs
from packageDir. -/
def pathContext (packageJSONPath packageLockPath : String) : PathContext :=
  let packageDir := dirname packageJSONPath
  let lockfileDir := dirname packageLockPath
  { packageJSONPath := packageJSONPath
    packageDir := packageDir
    packageLockPath := packageLockPath
    lockfileDir := lockfileDir
    isWorkspace := lockfileDir != packageDir }

/-- The run() function of the script, over the collaborator facts in env:
locate the files (assert.ok on the manifest path), run the git guard
(skipped under skip-git, or when git is unavailable for either path),
regenerate (the actual snapshots in env are its output), assert the
manifest unchanged regardless of mode, then checkDeep the lockfile
snapshots inside a try/catch whose handler filters the assertion message
through the peer-noise filter: remaining lines are real drift (thrown as
an Error), no remaining lines are tolerated noise (warning only).
Returns the collected issue list. -/
def run (opts : Options) (env : Env) : Except RunError (List String) :=
  match env.packageJSONPath with
  | none => .error (.assertion notFoundMessage)
  | some packageJSONPath =>
    let guardResult : Except RunError (List String) :=
      if opts.skipGit then
        .ok []
      else if !env.packageStatus.available || !env.lockfileStatus.available then
        .ok []
      else
        match check opts.warn env.packageStatus.clean
            (uncommittedPackageMessage packageJSONPath) [] with
        | .error e => .error e
        | .ok issues1 =>
          check opts.warn env.lockfileStatus.clean
            (uncommittedLockfileMessage env.packageLockPath) issues1
    match guardResult with
    | .error e => .error e
    | .ok issues =>
      if isDeepStrictEqual env.actualPackage env.expectedPackage then
        match checkDeep opts.warn env.actualLockfile env.expectedLockfile
            outOfSyncMessage issues with
        | .ok issuesAfter => .ok issuesAfter
        | .error (.assertion _) =>
          let lines := filterDiffLines env.assertionMessage
          if lines.isEmpty then
            .ok issues
          else
            .error (.drift (driftMessage lines))
        | .error e => .error e
      else
        .error (.assertion (manifestMutationMessage packageJSONPath))

/-- The exit-code selection of the reporter: a rejected run reports the
error and exits 1 (reportAndExit; modelled from the spec's exit-code
table: 1 for unexpected/fatal errors); a fulfilled run exits with the
drift code when issues were collected and warn mode is active, and 0
otherwise. -/
def exitCode (opts : Options) (result : Except RunError (List String)) : Nat :=
  match result with
  | .error _ => 1
  | .ok issues => if issues.length != 0 && opts.warn then EXIT_DRIFT else 0

/-- The issues the reporter prints to the user: the collected issue list
on the fulfilled path; on the rejected path only the error is reported
(reportAndExit receives the error alone), so no collected issues. -/
def reportedIssues (result : Except RunError (List String)) : List String :=
  match result with
  | .error _ => []
  | .ok issues => issues

/-- A run environment where everything is in order: files found, git
clean and available for both paths, and both documents unchanged by
regeneration. -/
def envInSync : Env :=
  { packageJSONPath := some "pkgs/foo/package.json"
    packageLockPath := "package-lock.json"
    packageStatus := { available := true, clean := true }
    lockfileStatus := { available := true, clean := true }
    expectedLockfile := .obj [("name", .str "foo"),
      ("packages", .obj [("node_modules/lodash",
        .obj [("version", .str "4.17.20")])])]
    expectedPackage := .obj [("name", .str "foo"), ("version", .str "1.0.0")]
    actualLockfile := .obj [("name", .str "foo"),
      ("packages", .obj [("node_modules/lodash",
        .obj [("version", .str "4.17.20")])])]
    actualPackage := .obj [("name", .str "foo"), ("version", .str "1.0.0")]
    assertionMessage := "" }

/-- An environment whose lockfile snapshots differ only in optional
peer-dependency bookkeeping: every addition/removal line of the rendered
diff contains the substring peer:. -/
def envPeerNoise : Env :=
  { envInSync with
    expectedLockfile := .obj [("packages", .obj [("node_modules/a",
      .obj [("peerDependenciesMeta", .str "x 1.0.0")])])]
    actualLockfile := .obj [("packages", .obj [("node_modules/a",
      .obj [("peerDependenciesMeta", .str "x 1.0.1")])])]
    assertionMessage :=
      "Expected values to be strictly deep-equal:\n" ++
      "+ actual - expected\n\n" ++
      "  node_modules/a:\n-   peer: x 1.0.0\n+   peer: x 1.0.1" }

/-- The removed line of the version-drift diff used below. -/
def oldVersionLine : String := "-   \"lodash\": \"4.17.20\""

/-- The added line of the version-drift diff used below. -/
def newVersionLine : String := "+   \"lodash\": \"4.17.21\""

/-- An environment whose lockfile snapshots differ in a dependency
version field (real drift), with the corresponding rendered diff. -/
def envVersionDrift : Env :=
  { envInSync with
    actualLockfile := .obj [("name", .str "foo"),
      ("packages", .obj [("node_modules/lodash",
        .obj [("version", .str "4.17.21")])])]
    assertionMessage :=
      "Expected values to be strictly deep-equal:\n" ++
      "+ actual - expected\n\n" ++
      oldVersionLine ++ "\n" ++ newVersionLine }

/-- An environment where both tracked paths have uncommitted changes and
the lockfile has drifted, while the manifest is unchanged. -/
def envDirtyBoth : Env :=
  { envVersionDrift with
    packageStatus := { available := true, clean := false }
    lockfileStatus := { available := true, clean := false } }

/-- An environment with uncommitted manifest changes but no lockfile
drift at all: both snapshots of both documents agree. -/
def envDirtyNoDrift : Env :=
  { envInSync with
    packageStatus := { available := true, clean := false } }

/-- An environment where git is available for the manifest (which is
dirty) but unavailable for the lockfile path. -/
def envDirtyPkgLockUnavailable : Env :=
  { envInSync with
    packageStatus := { available := true, clean := false }
    lockfileStatus := { available := false, clean := true } }

/-- An environment in which regeneration altered the manifest (git clean,
lockfile snapshots equal). -/
def envManifestMutated : Env :=
  { envInSync with
    actualPackage := .obj [("name", .str "foo"), ("version", .str "1.0.1")] }

/-- An environment in which the manifest is both dirty in git (so warn
mode collects an uncommitted-changes issue) and altered by regeneration
(so the run ends in the fatal manifest-mutation error). -/
def envDirtyPkgManifestMutated : Env :=
  { envManifestMutated with
    packageStatus := { available := true, clean := false } }

/-- An environment in which no package.json was found in the starting
directory or any ancestor. -/
def envNotFound : Env :=
  { envInSync with packageJSONPath := none }

/-- Claim C1 (counterexample): the lockfile snapshots of envPeerNoise are
not deeply equal and every addition/removal line of the rendered diff
contains peer:, yet the warn-mode run records the out-of-sync drift issue
and the process exits with the drift code — so peer-only noise is NOT
tolerated in warn mode, refuting the claim as stated. -/
theorem warnMode_reports_peer_only_difference :
    isDeepStrictEqual envPeerNoise.actualLockfile envPeerNoise.expectedLockfile = false
    ∧ filterDiffLines envPeerNoise.assertionMessage = []
    ∧ run { warn := true, skipGit := false } envPeerNoise = .ok [outOfSyncMessage]
    ∧ exitCode { warn := true, skipGit := false }
        (run { warn := true, skipGit := false } envPeerNoise) = EXIT_DRIFT := by
  refine ⟨rfl, rfl, rfl, rfl⟩

/-- Claim C1 (amended): for every pair of lockfile snapshots that are not
deeply equal but whose diff addition/removal lines all contain peer:
(i.e. the drift filter leaves no lines), the STRICT-mode run reports no
drift issue and no drift error, finishing with an empty issue list (only
an informational warning is logged); in WARN mode, however, the run
records the out-of-sync issue and exits with the drift code, because the
warn branch of checkDeep never reaches the peer-noise filter. -/
theorem peer_only_difference_tolerated_strict_flagged_warn
    (opts : Options) (env : Env) (p : String)
    (hfound : env.packageJSONPath = some p)
    (hman : isDeepStrictEqual env.actualPackage env.expectedPackage = true)
    (hpc : env.packageStatus.clean = true)
    (hlc : env.lockfileStatus.clean = true)
    (hneq : isDeepStrictEqual env.actualLockfile env.expectedLockfile = false)
    (hpeer : filterDiffLines env.assertionMessage = []) :
    (opts.warn = false → run opts env = .ok []) ∧
    (opts.warn = true → run opts env = .ok [outOfSyncMessage] ∧
      exitCode opts (run opts env) = EXIT_DRIFT) := by
  obtain ⟨w, sg⟩ := opts
  cases w <;> cases sg <;>
    cases hpa : env.packageStatus.available <;>
    cases hla : env.lockfileStatus.available <;>
    simp [run, check, checkDeep, exitCode, EXIT_DRIFT,
      hfound, hman, hpc, hlc, hneq, hpeer, hpa, hla]

/-- Claim C1 (witness): the amended theorem applied to envPeerNoise in
strict mode. -/
theorem peer_only_difference_witness :
    run { warn := false, skipGit := false } envPeerNoise = .ok [] :=
  (peer_only_difference_tolerated_strict_flagged_warn
    { warn := false, skipGit := false } envPeerNoise "pkgs/foo/package.json"
    rfl rfl rfl rfl rfl rfl).1 rfl

/-- Claim C2 (counterexample): with lockfile snapshots differing in a
dependency version field, the warn-mode run records exactly one issue,
but that issue is the fixed out-of-sync message, which contains neither
the removed old-version diff line nor the added new-version diff line —
refuting the claim that the issue string contains both changed lines. -/
theorem warn_drift_issue_lacks_changed_lines :
    run { warn := true, skipGit := false } envVersionDrift = .ok [outOfSyncMessage]
    ∧ containsSubstring outOfSyncMessage oldVersionLine = false
    ∧ containsSubstring outOfSyncMessage newVersionLine = false
    ∧ exitCode { warn := true, skipGit := false }
        (run { warn := true, skipGit := false } envVersionDrift) = EXIT_DRIFT := by
  refine ⟨rfl, rfl, rfl, rfl⟩

/-- Claim C2 (amended): for every pair of lockfile snapshots that are not
deeply equal (e.g. differing in a dependency version field), the
warn-mode run records exactly one issue — the fixed message that
package-lock.json is out of sync with package.json, which does not quote
the changed diff lines — and the process exits with drift code 2. -/
theorem warn_drift_records_single_generic_issue
    (opts : Options) (env : Env) (p : String)
    (hwarn : opts.warn = true)
    (hfound : env.packageJSONPath = some p)
    (hman : isDeepStrictEqual env.actualPackage env.expectedPackage = true)
    (hpc : env.packageStatus.clean = true)
    (hlc : env.lockfileStatus.clean = true)
    (hneq : isDeepStrictEqual env.actualLockfile env.expectedLockfile = false) :
    run opts env = .ok [outOfSyncMessage] ∧
    exitCode opts (run opts env) = EXIT_DRIFT := by
  obtain ⟨w, sg⟩ := opts
  cases hwarn
  cases sg <;>
    cases hpa : env.packageStatus.available <;>
    cases hla : env.lockfileStatus.available <;>
    simp [run, check, checkDeep, exitCode, EXIT_DRIFT,
      hfound, hman, hpc, hlc, hneq, hpa, hla]

/-- Claim C2 (witness): the amended theorem applied to envVersionDrift. -/
theorem warn_drift_records_single_generic_issue_witness :
    run { warn := true, skipGit := false } envVersionDrift = .ok [outOfSyncMessage] :=
  (warn_drift_records_single_generic_issue
    { warn := true, skipGit := false } envVersionDrift "pkgs/foo/package.json"
    rfl rfl rfl rfl rfl rfl).1

/-- Claim C3: whenever the manifest document read after regeneration is
not deeply equal to the one read before, the run fails with the fatal
manifest-mutation assertion in every mode (strict or warn, git guard on
or off), exiting with the generic error code 1; no mode downgrades it to
a collected issue. -/
theorem manifest_mutation_always_fatal
    (opts : Options) (env : Env) (p : String)
    (hfound : env.packageJSONPath = some p)
    (hpc : env.packageStatus.clean = true)
    (hlc : env.lockfileStatus.clean = true)
    (hman : isDeepStrictEqual env.actualPackage env.expectedPackage = false) :
    run opts env = .error (.assertion (manifestMutationMessage p)) ∧
    exitCode opts (run opts env) = 1 := by
  obtain ⟨w, sg⟩ := opts
  cases w <;> cases sg <;>
    cases hpa : env.packageStatus.available <;>
    cases hla : env.lockfileStatus.available <;>
    simp [run, check, checkDeep, exitCode,
      hfound, hpc, hlc, hman, hpa, hla]

/-- Claim C3 (witness): the theorem applied to envManifestMutated in both
strict and warn mode. -/
theorem manifest_mutation_always_fatal_witness :
    run { warn := false, skipGit := false } envManifestMutated =
      .error (.assertion (manifestMutationMessage "pkgs/foo/package.json"))
    ∧ run { warn := true, skipGit := false } envManifestMutated =
      .error (.assertion (manifestMutationMessage "pkgs/foo/package.json")) :=
  ⟨(manifest_mutation_always_fatal { warn := false, skipGit := false }
      envManifestMutated "pkgs/foo/package.json" rfl rfl rfl rfl).1,
   (manifest_mutation_always_fatal { warn := true, skipGit := false }
      envManifestMutated "pkgs/foo/package.json" rfl rfl rfl rfl).1⟩

/-- Claim C4: the dispatch rule of check/checkDeep over a run in which
both tracked paths are dirty and the lockfile has drifted (manifest
unchanged): in strict mode the FIRST failing check raises immediately —
the run fails with the package-path uncommitted-changes assertion and no
later failure surfaces — while in warn mode every failing check appends
its message and the run continues to completion, collecting all three
failure messages in order. -/
theorem dispatch_strict_aborts_warn_collects
    (env : Env) (p : String)
    (hfound : env.packageJSONPath = some p)
    (hpa : env.packageStatus.available = true)
    (hla : env.lockfileStatus.available = true)
    (hpc : env.packageStatus.clean = false)
    (hlc : env.lockfileStatus.clean = false)
    (hman : isDeepStrictEqual env.actualPackage env.expectedPackage = true)
    (hneq : isDeepStrictEqual env.actualLockfile env.expectedLockfile = false) :
    run { warn := false, skipGit := false } env =
      .error (.assertion (uncommittedPackageMessage p)) ∧
    run { warn := true, skipGit := false } env =
      .ok [uncommittedPackageMessage p,
           uncommittedLockfileMessage env.packageLockPath,
           outOfSyncMessage] := by
  constructor <;>
    simp [run, check, checkDeep, hfound, hpa, hla, hpc, hlc, hman, hneq]

/-- Claim C4 (witness): the dispatch theorem applied to envDirtyBoth. -/
theorem dispatch_strict_aborts_warn_collects_witness :
    run { warn := false, skipGit := false } envDirtyBoth =
      .error (.assertion (uncommittedPackageMessage "pkgs/foo/package.json")) :=
  (dispatch_strict_aborts_warn_collects envDirtyBoth "pkgs/foo/package.json"
    rfl rfl rfl rfl rfl rfl rfl).1

/-- Claim C5 (counterexample): in warn mode with an uncommitted manifest
change but NO lockfile drift (both lockfile snapshots deeply equal), the
process still exits with the drift code 2 — refuting the claim that exit
code 2 is produced only when lockfile drift was detected. -/
theorem drift_exit_without_lockfile_drift :
    isDeepStrictEqual envDirtyNoDrift.actualLockfile
      envDirtyNoDrift.expectedLockfile = true
    ∧ run { warn := true, skipGit := false } envDirtyNoDrift =
        .ok [uncommittedPackageMessage "pkgs/foo/package.json"]
    ∧ exitCode { warn := true, skipGit := false }
        (run { warn := true, skipGit := false } envDirtyNoDrift) = EXIT_DRIFT := by
  refine ⟨rfl, rfl, rfl⟩

/-- Claim C5 (amended): the process exits with code 2 exactly when warn
mode is active and at least one issue was collected — lockfile drift OR
uncommitted changes — and exit code 2 is never produced in strict mode
(where the issue list is always empty and failures abort with exit 1). -/
theorem drift_exit_iff_warn_mode_issues (opts : Options) (env : Env) :
    (exitCode opts (run opts env) = EXIT_DRIFT ↔
      opts.warn = true ∧ ∃ l, run opts env = .ok l ∧ l ≠ []) ∧
    (opts.warn = false → exitCode opts (run opts env) ≠ EXIT_DRIFT) := by
  cases hr : run opts env with
  | error e => simp [exitCode, hr, EXIT_DRIFT]
  | ok l =>
    obtain ⟨w, sg⟩ := opts
    cases w <;> cases l <;> simp [exitCode, hr, EXIT_DRIFT]

/-- Claim C5 (witness): the amended theorem applied in strict mode to the
drifting environment — the exit code is not the drift code. -/
theorem drift_exit_iff_warn_mode_issues_witness :
    exitCode { warn := false, skipGit := false }
      (run { warn := false, skipGit := false } envVersionDrift) ≠ EXIT_DRIFT :=
  (drift_exit_iff_warn_mode_issues
    { warn := false, skipGit := false } envVersionDrift).2 rfl

/-- Claim C6 (counterexample): git tooling is available for the manifest
path, which has uncommitted changes, while the lockfile path's tooling is
unavailable — and the run records no uncommitted-changes issue in warn
mode and raises nothing in strict mode: the dirty-check for the
available path did NOT still run, refuting the per-path independence the
claim states. -/
theorem available_path_check_skipped_when_other_unavailable :
    envDirtyPkgLockUnavailable.packageStatus.available = true
    ∧ envDirtyPkgLockUnavailable.packageStatus.clean = false
    ∧ envDirtyPkgLockUnavailable.lockfileStatus.available = false
    ∧ run { warn := true, skipGit := false } envDirtyPkgLockUnavailable = .ok []
    ∧ run { warn := false, skipGit := false } envDirtyPkgLockUnavailable = .ok [] := by
  refine ⟨rfl, rfl, rfl, rfl, rfl⟩

/-- Claim C6 (amended): the guard is gated on BOTH paths at once — if
version-control tooling is unavailable for either tracked path, the run
emits a warning and skips the dirty-checks for both paths (no issue, no
failure, in either mode); only when tooling is available for both paths
do the two dirty-checks run, each dirty path contributing its
uncommitted-changes issue. -/
theorem git_guard_gated_on_both_available (env : Env) (p : String)
    (hfound : env.packageJSONPath = some p)
    (hman : isDeepStrictEqual env.actualPackage env.expectedPackage = true)
    (hsync : isDeepStrictEqual env.actualLockfile env.expectedLockfile = true) :
    ((env.packageStatus.available = false ∨ env.lockfileStatus.available = false) →
      ∀ w : Bool, run { warn := w, skipGit := false } env = .ok []) ∧
    (env.packageStatus.available = true → env.lockfileStatus.available = true →
      run { warn := true, skipGit := false } env =
        .ok ((if env.packageStatus.clean = true then []
              else [uncommittedPackageMessage p]) ++
             (if env.lockfileStatus.clean = true then []
              else [uncommittedLockfileMessage env.packageLockPath]))) := by
  constructor
  · rintro (h | h) w <;>
      cases hpa : env.packageStatus.available <;>
      cases hla : env.lockfileStatus.available <;>
      simp_all [run, check, checkDeep, hfound, hman, hsync]
  · intro hpa hla
    cases hpc : env.packageStatus.clean <;>
      cases hlc : env.lockfileStatus.clean <;>
      simp [run, check, checkDeep, hfound, hman, hsync, hpa, hla, hpc, hlc]

/-- Claim C6 (witness): the amended theorem's unavailable branch applied
to the environment with a dirty available manifest path and an
unavailable lockfile path. -/
theorem git_guard_gated_on_both_available_witness :
    run { warn := true, skipGit := false } envDirtyPkgLockUnavailable = .ok [] :=
  (git_guard_gated_on_both_available envDirtyPkgLockUnavailable
    "pkgs/foo/package.json" rfl rfl rfl).1 (Or.inr rfl) true

/-- Claim C7: with the skip-git flag set, the run never consults the
version-control statuses — its outcome is unchanged under any
replacement of both statuses — and no uncommitted-changes issue can be
produced: any fulfilled run carries either no issues or only the
lockfile out-of-sync issue. -/
theorem skip_git_ignores_version_control (opts : Options) (env : Env)
    (s1 s2 : GitStatus) (hskip : opts.skipGit = true) :
    run opts { env with packageStatus := s1, lockfileStatus := s2 } =
      run opts env ∧
    (∀ l, run opts env = .ok l → l = [] ∨ l = [outOfSyncMessage]) := by
  obtain ⟨w, sg⟩ := opts
  cases hskip
  cases hp : env.packageJSONPath with
  | none => simp [run, hp]
  | some p =>
    constructor
    · cases hm : isDeepStrictEqual env.actualPackage env.expectedPackage <;>
        cases hl : isDeepStrictEqual env.actualLockfile env.expectedLockfile <;>
        cases w <;>
        simp [run, checkDeep, hp, hm, hl]
    · intro l hrun
      cases hm : isDeepStrictEqual env.actualPackage env.expectedPackage <;>
        cases hl : isDeepStrictEqual env.actualLockfile env.expectedLockfile <;>
        cases hpe : (filterDiffLines env.assertionMessage).isEmpty <;>
        cases w <;>
        simp [run, checkDeep, hp, hm, hl, hpe] at hrun <;>
        simp [hrun]

/-- Claim C7 (witness): under skip-git, replacing the clean statuses of
the in-sync environment by a dirty manifest status and an unavailable
lockfile status leaves the run's outcome unchanged. -/
theorem skip_git_ignores_version_control_witness :
    run { warn := true, skipGit := true }
      { envInSync with
        packageStatus := { available := true, clean := false }
        lockfileStatus := { available := false, clean := false } } =
      run { warn := true, skipGit := true } envInSync :=
  (skip_git_ignores_version_control { warn := true, skipGit := true } envInSync
    { available := true, clean := false }
    { available := false, clean := false } rfl).1

/-- Claim C8: when no package.json is found in the starting directory or
any ancestor, the run fails with the fatal not-found assertion in every
mode, exiting with the generic error code 1. -/
theorem missing_manifest_always_fatal (opts : Options) (env : Env)
    (hnone : env.packageJSONPath = none) :
    run opts env = .error (.assertion notFoundMessage) ∧
    exitCode opts (run opts env) = 1 := by
  simp [run, exitCode, hnone]

/-- Claim C8 (witness): the theorem applied to envNotFound in both
strict and warn mode. -/
theorem missing_manifest_always_fatal_witness :
    run { warn := false, skipGit := false } envNotFound =
      .error (.assertion notFoundMessage)
    ∧ run { warn := true, skipGit := true } envNotFound =
      .error (.assertion notFoundMessage) :=
  ⟨(missing_manifest_always_fatal { warn := false, skipGit := false }
      envNotFound rfl).1,
   (missing_manifest_always_fatal { warn := true, skipGit := true }
      envNotFound rfl).1⟩

/-- Claim C9: for every resolved PathContext, the package directory and
lockfile directory are the dirnames of the two paths, and the derived
workspace-root flag is true exactly when the lockfile's directory differs
from the manifest's package directory. -/
theorem workspace_flag_iff_directories_differ (pkgPath lockPath : String) :
    (pathContext pkgPath lockPath).packageDir = dirname pkgPath ∧
    (pathContext pkgPath lockPath).lockfileDir = dirname lockPath ∧
    ((pathContext pkgPath lockPath).isWorkspace = true ↔
      dirname lockPath ≠ dirname pkgPath) := by
  refine ⟨rfl, rfl, ?_⟩
  simp [pathContext, bne_iff_ne]

/-- Claim C9 (witness): the theorem applied to the spec's P6 scenario — a
manifest at pkgs/foo/package.json with the lockfile resolved at the
repository root yields a true workspace-root flag. -/
theorem workspace_flag_witness_p6 :
    (pathContext "pkgs/foo/package.json" "package-lock.json").isWorkspace = true :=
  (workspace_flag_iff_directories_differ
    "pkgs/foo/package.json" "package-lock.json").2.2.mpr (by decide)

/-- Claim C10: in warn mode, when the manifest was mutated by
regeneration after an uncommitted-changes issue had already been
collected for the dirty manifest path, the run aborts through the error
path with the fatal manifest-mutation assertion, exits 1, and the
previously collected issues are never reported to the user. -/
theorem warn_fatal_discards_collected_issues (env : Env) (p : String)
    (hfound : env.packageJSONPath = some p)
    (hpa : env.packageStatus.available = true)
    (hpc : env.packageStatus.clean = false)
    (hla : env.lockfileStatus.available = true)
    (hlc : env.lockfileStatus.clean = true)
    (hman : isDeepStrictEqual env.actualPackage env.expectedPackage = false) :
    run { warn := true, skipGit := false } env =
      .error (.assertion (manifestMutationMessage p)) ∧
    reportedIssues (run { warn := true, skipGit := false } env) = [] ∧
    exitCode { warn := true, skipGit := false }
      (run { warn := true, skipGit := false } env) = 1 := by
  simp [run, check, reportedIssues, exitCode, hfound, hpa, hpc, hla, hlc, hman]

/-- Claim C10 (witness): the theorem applied to the environment with a
dirty, mutated manifest. -/
theorem warn_fatal_discards_collected_issues_witness :
    run { warn := true, skipGit := false } envDirtyPkgManifestMutated =
      .error (.assertion (manifestMutationMessage "pkgs/foo/package.json"))
    ∧ reportedIssues (run { warn := true, skipGit := false }
        envDirtyPkgManifestMutated) = [] :=
  ⟨(warn_fatal_discards_collected_issues envDirtyPkgManifestMutated
      "pkgs/foo/package.json" rfl rfl rfl rfl rfl rfl).1,
   (warn_fatal_discards_collected_issues envDirtyPkgManifestMutated
      "pkgs/foo/package.json" rfl rfl rfl rfl rfl rfl).2.1⟩

end LintLockfile
